import Mathlib

/-!
# Verification of the turbo.az car-listing scraper

A shallow embedding of the core pipeline of the `turboaz_az_carwebsite`
repository: the fetcher with retry/backoff (`fetch_page` in both `main.py` and
`scraper.py`), the pagination resolver (`get_total_pages`, `get_listing_ids`),
the field extractor (`parse_car_details`, `extract_price`,
`extract_engine_size`, `extract_fuel_type`, `process_car_data`,
`scrape_specific_listing`) and the persistence layer (`models.init_db`,
`models.save_car_to_db`, `TurboAzScraper.save_data`).

Python strings are Lean `String`s; Python floats are modelled with exact
rationals (`ℚ`), Python ints with `ℤ`; `None` / exception-raising paths are
modelled with `Option`.  HTML documents are modelled at the granularity the
code inspects them: the text of the selected elements.
-/

namespace TurboAz

/-! ## Python-style numeric parsing

`natOfDigits` is the value of a list of ASCII digit characters.
`pyFloatParse` models Python `float(s)` on the string shapes the scraper
feeds it (optional sign, digits, at most one decimal point; Python's
exponent/underscore/unicode-digit forms do not occur in the scraped inputs and
are modelled as parse failures).  `pyIntParse` models `int(s)` likewise.
A `none` result stands for the `ValueError` the call would raise. -/

def natOfDigits (l : List Char) : ℕ :=
  l.foldl (fun a c => 10 * a + (c.toNat - 48)) 0

/-- Split a character list on `.` (used to validate the decimal-point shape
accepted by `float`). -/
def splitOnDot : List Char → List (List Char)
  | [] => [[]]
  | c :: rest =>
    if c = '.' then [] :: splitOnDot rest
    else
      match splitOnDot rest with
      | [] => [[c]]
      | g :: gs => (c :: g) :: gs

def pyFloatCore (l : List Char) : Option ℚ :=
  match splitOnDot l with
  | [a] =>
    if a.isEmpty then none
    else if a.all Char.isDigit then some (natOfDigits a) else none
  | [a, b] =>
    if a.isEmpty && b.isEmpty then none
    else if a.all Char.isDigit && b.all Char.isDigit then
      some ((natOfDigits a : ℚ) + (natOfDigits b : ℚ) / (10 : ℚ) ^ b.length)
    else none
  | _ => none

def pyFloatParse (s : String) : Option ℚ :=
  match s.data with
  | [] => none
  | c :: rest =>
    if c = '-' then (pyFloatCore rest).map (fun q => -q)
    else if c = '+' then pyFloatCore rest
    else pyFloatCore (c :: rest)

def pyIntCore (l : List Char) : Option ℤ :=
  if l.isEmpty then none
  else if l.all Char.isDigit then some (natOfDigits l) else none

def pyIntParse (s : String) : Option ℤ :=
  match s.data with
  | [] => none
  | c :: rest =>
    if c = '-' then (pyIntCore rest).map Neg.neg
    else if c = '+' then pyIntCore rest
    else pyIntCore (c :: rest)

/-! ## String helpers -/

/-- ASCII lowercasing, modelling `str.lower()` on the inputs the fuel-type
matcher inspects (its keywords are all ASCII). -/
def lowerChar (c : Char) : Char :=
  if 'A' ≤ c ∧ c ≤ 'Z' then Char.ofNat (c.toNat + 32) else c

def lowerStr (s : String) : String := String.mk (s.data.map lowerChar)

/-- Does `needle` occur at the head of `hay`? -/
def begMatch : List Char → List Char → Bool
  | [], _ => true
  | _ :: _, [] => false
  | a :: as, b :: bs => a == b && begMatch as bs

/-- Substring occurrence, modelling Python's `needle in hay`. -/
def containsChars (needle : List Char) : List Char → Bool
  | [] => needle.isEmpty
  | c :: rest => begMatch needle (c :: rest) || containsChars needle rest

def containsStr (hay needle : String) : Bool :=
  containsChars needle.data hay.data

/-- The characters after the last `/`, modelling `url.split('/')[-1]`. -/
def lastSegment (s : String) : String :=
  String.mk ((s.data.reverse.takeWhile (fun c => c != '/')).reverse)

/-- Whitespace tokenisation modelling `str.split()` (space only; the engine
strings the code splits use plain spaces). -/
def wsSplitAux : List Char → List Char → List (List Char)
  | [], acc => if acc.isEmpty then [] else [acc.reverse]
  | c :: rest, acc =>
    if c = ' ' then
      if acc.isEmpty then wsSplitAux rest [] else acc.reverse :: wsSplitAux rest []
    else wsSplitAux rest (c :: acc)

/-! ## Configuration (`config.py`) -/

def BASE_URL : String := "https://turbo.az/autos"
def MAX_RETRIES : ℕ := 3
def DELAY_BETWEEN_REQUESTS : ℕ := 1

/-- `LABEL_MAPPING` from `config.py`: site-native labels to field names. -/
def LABEL_MAPPING : List (String × String) :=
  [("Şəhər", "location"), ("Marka", "brand"), ("Model", "model"),
   ("Buraxılış ili", "year"), ("Ban növü", "body_type"), ("Rəng", "color"),
   ("Mühərrik", "engine_size"), ("Yürüş", "mileage"),
   ("Yanacaq növü", "fuel_type"), ("Sürətlər qutusu", "transmission"),
   ("Ötürücü", "drivetrain"), ("Yeni", "condition"), ("Sahiblər", "owners"),
   ("Vəziyyəti", "condition_details")]

/-- `LABEL_MAPPING.get(label, label)`. -/
def mapLabel (l : String) : String :=
  ((LABEL_MAPPING.find? (fun p => p.1 == l)).map (fun p => p.2)).getD l

/-! ## Raw properties and `parse_car_details`

A Python `dict` built by insertion is modelled as an association list where a
repeated key overwrites the stored value in place. -/

abbrev RawProps := List (String × String)

def rpInsert (props : RawProps) (k v : String) : RawProps :=
  match props with
  | [] => [(k, v)]
  | p :: rest => if p.1 == k then (k, v) :: rest else p :: rpInsert rest k v

def rpGet (props : RawProps) (k : String) : Option String :=
  (props.find? (fun p => p.1 == k)).map (fun p => p.2)

/-- `parse_car_details` (both files): each property item contributes its
name/value text pair; an item with either sub-element missing is skipped
(`main.py` through the per-item exception handler, `scraper.py` through the
explicit `if name_elem and value_elem` guard); the name goes through
`LABEL_MAPPING`. -/
def parseCarDetails (items : List (Option String × Option String)) : RawProps :=
  items.foldl
    (fun props item =>
      match item with
      | (some n, some v) => rpInsert props (mapLabel n) v
      | _ => props)
    []

/-! ## Derived field extraction -/

/-- `extract_price`: `None`/missing element gives `0`; otherwise every
non-digit character is dropped and the remainder parsed (`float('')` raises,
which the handler turns into `0`, exactly like the empty-text guard). -/
def extract_price : Option String → ℚ
  | none => 0
  | some t =>
    if t = "" then 0
    else
      match pyFloatParse (String.mk (t.data.filter Char.isDigit)) with
      | some v => v
      | none => 0

/-- The value of the digit characters of `t`, read in order. -/
def digitsVal (t : String) : ℕ := natOfDigits (t.data.filter Char.isDigit)

/-- `TurboAzScraper.extract_engine_size`: keep digits and the decimal point of
the whole `engine_size` property, parse; any failure gives `0`. -/
def scraperExtractEngineSize (props : RawProps) : ℚ :=
  let engineText := (rpGet props "engine_size").getD ""
  if engineText = "" then 0
  else
    (pyFloatParse
        (String.mk (engineText.data.filter (fun c => c.isDigit || c == '.')))).getD 0

/-- `main.py`'s `extract_engine_size`: same, but only over the first
whitespace-separated token. -/
def mainExtractEngineSize (e : Option String) : ℚ :=
  match e with
  | none => 0
  | some t =>
    if t = "" then 0
    else
      match wsSplitAux t.data [] with
      | [] => 0
      | tok :: _ => (pyFloatParse (String.mk (tok.filter (fun c => c.isDigit || c == '.')))).getD 0

/-- `mileage.replace(' ', '').replace('km', '')`. -/
def cleanMileage (s : String) : String := (s.replace " " "").replace "km" ""

/-- `float(properties.get('mileage', '0').replace(' ', '').replace('km', ''))`;
`none` is the `ValueError` path. -/
def parseMileage (props : RawProps) : Option ℚ :=
  pyFloatParse (cleanMileage ((rpGet props "mileage").getD "0"))

/-- `int(properties.get('year', 0))`; `none` is the `ValueError` path
(the absent-key default `0` always parses). -/
def parseYear (props : RawProps) : Option ℤ :=
  match rpGet props "year" with
  | none => some 0
  | some s => pyIntParse s

/-! ## Fuel type -/

/-- The Azerbaijani-to-English fuel table shared by both implementations,
in its Python insertion order. -/
def fuelKeywordTable : List (String × String) :=
  [("Benzin", "Gasoline"), ("Dizel", "Diesel"), ("Qaz", "Gas"),
   ("Elektro", "Electric"), ("Hibrid", "Hybrid")]

/-- The `elif` cascade of `main.py`'s `extract_fuel_type` over the lowercased
engine text. -/
def engineFuelMatch (e : String) : Option String :=
  if containsStr e "hibrid" then some "Hybrid"
  else if containsStr e "elektro" then some "Electric"
  else if containsStr e "dizel" || containsStr e "diesel" then some "Diesel"
  else if containsStr e "benzin" then some "Gasoline"
  else if containsStr e "qaz" then some "Gas"
  else none

/-- The title loop of `main.py`'s `extract_fuel_type`: first table entry whose
lowercased Azerbaijani keyword occurs in the (already lowercased) title. -/
def titleFuelMatch (tl : String) : Option String :=
  (fuelKeywordTable.find? (fun p => containsStr tl (lowerStr p.1))).map (fun p => p.2)

/-- `main.py` `extract_fuel_type` after the explicit-property check failed. -/
def mainFuelFallback (props : RawProps) (title : String) : String :=
  match engineFuelMatch (lowerStr ((rpGet props "engine_size").getD "")) with
  | some f => f
  | none =>
    match titleFuelMatch (lowerStr title) with
    | some f => f
    | none => "Gasoline"

/-- `main.py` `extract_fuel_type`: a truthy (present, non-empty) `fuel_type`
property wins; otherwise engine text, then title, then `'Gasoline'`. -/
def mainExtractFuelType (props : RawProps) (title : String) : String :=
  match rpGet props "fuel_type" with
  | some ft => if ft = "" then mainFuelFallback props title else ft
  | none => mainFuelFallback props title

/-- The title loop of `TurboAzScraper.extract_fuel_type`: case-sensitive
`az_type in title`. -/
def scraperTitleMatch (title : String) : Option String :=
  (fuelKeywordTable.find? (fun p => containsStr title p.1)).map (fun p => p.2)

/-- `TurboAzScraper.extract_fuel_type`: explicit truthy property, else the
case-sensitive title match, else `None` (no engine-text step, no default). -/
def scraperExtractFuelType (props : RawProps) (title : String) : Option String :=
  match rpGet props "fuel_type" with
  | some ft => if ft = "" then scraperTitleMatch title else some ft
  | none => scraperTitleMatch title

/-! ## Listing documents and records -/

/-- A listing page as the extractors see it: the text of each selected
element (`none` = element absent), the property items' name/value texts, and
the seller/photo markers. -/
structure ListingDoc where
  titleElem : Option String
  priceElem : Option String
  descElem : Option String
  propertyItems : List (Option String × Option String)
  shopContact : Bool
  ownerInfo : Bool
  photoSrcs : List (Option String)
deriving DecidableEq, Repr

/-- The car-data record both extractors build.  `main.py`'s `json.dumps` of
the image list is elided: images are carried as the list itself. -/
structure CarData where
  title : String
  price : ℚ
  description : Option String
  location : Option String
  brand : Option String
  model : Option String
  year : ℤ
  body_type : Option String
  color : Option String
  engine_size : ℚ
  mileage : ℚ
  transmission : Option String
  listing_id : String
  url : String
  fuel_type : Option String
  seller_type : Option String
  images : Option (List String)
deriving DecidableEq, Repr

/-- `TurboAzScraper.extract_seller_type`. -/
def scraperExtractSellerType (d : ListingDoc) : Option String :=
  if d.shopContact then some "Dealer"
  else if d.ownerInfo then some "Private"
  else none

/-- `main.py`'s seller rule: `'Dealer' if shop_contact else 'Private'`. -/
def mainSellerType (d : ListingDoc) : Option String :=
  if d.shopContact then some "Dealer" else some "Private"

/-- `extract_images`: `src` attributes in order; an empty collection is
persisted as an absent value. -/
def extractImages (d : ListingDoc) : Option (List String) :=
  let imgs := d.photoSrcs.filterMap id
  if imgs.isEmpty then none else some imgs

/-- `TurboAzScraper.process_car_data`: requires a title element and a
non-empty property map; each derived field is individually guarded, so a
failed `year`/`mileage` parse becomes `0` for that field only. -/
def scraperProcessCarData (d : ListingDoc) (url : String) : Option CarData :=
  match d.titleElem with
  | none => none
  | some title =>
    let props := parseCarDetails d.propertyItems
    if props.isEmpty then none
    else
      some
        { title := title
          price := extract_price d.priceElem
          description := d.descElem
          location := rpGet props "location"
          brand := rpGet props "brand"
          model := rpGet props "model"
          year := (parseYear props).getD 0
          body_type := rpGet props "body_type"
          color := rpGet props "color"
          engine_size := scraperExtractEngineSize props
          mileage := (parseMileage props).getD 0
          transmission := rpGet props "transmission"
          listing_id := lastSegment url
          url := url
          fuel_type := scraperExtractFuelType props title
          seller_type := scraperExtractSellerType d
          images := extractImages d }

/-- `main.py`'s `scrape_specific_listing` after a successful fetch: the
`int(...)` year conversion and `float(...)` mileage conversion are *not*
individually guarded, so their `ValueError` escapes to the whole-listing
handler, which returns the empty dict (modelled `none`).  The function does
not set `listing_id` (`main()` assigns it afterwards); it is modelled as
`""` here, with `mainAssignId` for the caller's assignment. -/
def mainScrapeListing (d : ListingDoc) (url : String) : Option CarData :=
  match d.titleElem with
  | none => none
  | some title =>
    let props := parseCarDetails d.propertyItems
    if props.isEmpty then none
    else
      match parseYear props with
      | none => none
      | some yr =>
        match parseMileage props with
        | none => none
        | some mil =>
          some
            { title := title
              price := extract_price d.priceElem
              description := d.descElem
              location := rpGet props "location"
              brand := rpGet props "brand"
              model := rpGet props "model"
              year := yr
              body_type := rpGet props "body_type"
              color := rpGet props "color"
              engine_size := mainExtractEngineSize (rpGet props "engine_size")
              mileage := mil
              transmission := rpGet props "transmission"
              listing_id := ""
              url := url
              fuel_type := some (mainExtractFuelType props title)
              seller_type := mainSellerType d
              images := extractImages d }

/-- `main()` lines 396-403: `car_details['listing_id'] = listing_id`. -/
def mainAssignId (lid : String) (r : CarData) : CarData := { r with listing_id := lid }

/-- `TurboAzScraper.scrape_listing` builds the listing URL as
`f"{base_url}/{listing_id}"`. -/
def listingUrl (lid : String) : String := BASE_URL ++ "/" ++ lid

/-! ## Pagination resolver -/

/-- The index page as `get_total_pages` sees it: `pagination` is the list of
anchor texts (already stripped) inside the `div.pagination`, or `none` when
that control is absent.  The whole input is `none` when `fetch_page`
returned a falsy value. -/
structure IndexHtml where
  pagination : Option (List String)
deriving DecidableEq, Repr

/-- Python `xs[-2]`: second-to-last element, `IndexError` (`none`) when fewer
than two elements exist. -/
def secondToLast (xs : List String) : Option String :=
  if h : 2 ≤ xs.length then some (xs.get ⟨xs.length - 2, by omega⟩) else none

/-- `get_total_pages` (identical in `main.py` and `scraper.py`): `0` on fetch
failure, `1` with no pagination control, else `int` of the second-to-last
anchor with `IndexError`/`ValueError` giving `0`. -/
def getTotalPages (html : Option IndexHtml) : ℤ :=
  match html with
  | none => 0
  | some h =>
    match h.pagination with
    | none => 1
    | some anchors =>
      match secondToLast anchors with
      | none => 0
      | some t =>
        match pyIntParse t with
        | none => 0
        | some n => n

/-- The listings page as `get_listing_ids` sees it: the `href` of each
product-link anchor (`none` = attribute missing). -/
structure IndexPage where
  links : List (Option String)
deriving DecidableEq, Repr

/-- Split a character list on a separator, modelling `str.split(sep)`
(`"".split(sep)` gives `[""]`, like the `[[]]` base case). -/
def splitOnChar (sep : Char) : List Char → List (List Char)
  | [] => [[]]
  | c :: rest =>
    if c = sep then [] :: splitOnChar sep rest
    else
      match splitOnChar sep rest with
      | [] => [[c]]
      | g :: gs => (c :: g) :: gs

/-- `href.split('/')[2].split('-')[0]`; `none` is the `IndexError` that makes
the loop skip the link. -/
def hrefToId (href : String) : Option String :=
  match (splitOnChar '/' href.data).get? 2 with
  | none => none
  | some seg => ((splitOnChar '-' seg).head?).map String.mk

/-- `get_listing_ids` / `get_all_listing_ids`: empty on fetch failure,
otherwise the ids of the conforming links in order. -/
def getListingIds (html : Option IndexPage) : List String :=
  match html with
  | none => []
  | some pg =>
    pg.links.foldl
      (fun acc l =>
        match l with
        | none => acc
        | some href =>
          match hrefToId href with
          | none => acc
          | some lid => acc ++ [lid])
      []

/-- The ids one page contributes to a run, given the per-page fetch result. -/
def pageIds (fetchIdx : ℕ → Option IndexPage) (p : ℕ) : List String :=
  getListingIds (fetchIdx p)

/-- The id stream of the page loop of `scrape()` / `main()`: pages `1..total`
in order, each contributing its `get_listing_ids` result; the loop never
aborts. -/
def runListingIds (fetchIdx : ℕ → Option IndexPage) (total : ℕ) : List String :=
  ((List.range total).map (fun k => pageIds fetchIdx (k + 1))).flatten

/-! ## Fetcher

One `Outcome` per attempt: the response the network produced, or the
exception `requests.get` raised.  The fetch functions return the result the
Python function returns together with the list of sleep durations it
performs, in order. -/

inductive Outcome where
  | resp (code : ℕ) (body : String)
  | timeout
  | connError
deriving DecidableEq, Repr

/-- `main.py`'s success test: `status_code == 200`. -/
def mainSucceeds : Outcome → Bool
  | .resp c _ => c == 200
  | _ => false

/-- `scraper.py`'s success test: `raise_for_status()` raises exactly for
`400 ≤ code < 600`, so any response below 400 is returned. -/
def scraperSucceeds : Outcome → Bool
  | .resp c _ => decide (c < 400)
  | _ => false

def is429 : Outcome → Bool
  | .resp c _ => c == 429
  | _ => false

/-- The retry loop of `main.py`'s `fetch_page`, from attempt index `i` with
`rem` attempts left: a 200 returns the body; a 429 sleeps `2 * δ`; every
failing attempt except the last is followed by a constant `δ` sleep. -/
def mainFetchRun (outs : ℕ → Outcome) (δ : ℕ) : ℕ → ℕ → Option String × List ℕ
  | _, 0 => (none, [])
  | i, rem + 1 =>
    match outs i with
    | .resp c b =>
      if c = 200 then (some b, [])
      else
        let pre := if c = 429 then [2 * δ] else []
        let mid := if rem = 0 then [] else [δ]
        let r := mainFetchRun outs δ (i + 1) rem
        (r.1, pre ++ mid ++ r.2)
    | _ =>
      let mid := if rem = 0 then [] else [δ]
      let r := mainFetchRun outs δ (i + 1) rem
      (r.1, mid ++ r.2)

def mainFetchPage (outs : ℕ → Outcome) (δ maxR : ℕ) : Option String × List ℕ :=
  mainFetchRun outs δ 0 maxR

/-- The retry loop of `TurboAzScraper.fetch_page`: any `RequestException`
(timeouts, connection errors, and the `HTTPError` from `raise_for_status`,
429 included) sleeps `δ * (attempt + 1)` unless it was the last attempt. -/
def scraperFetchRun (outs : ℕ → Outcome) (δ : ℕ) : ℕ → ℕ → Option String × List ℕ
  | _, 0 => (none, [])
  | i, rem + 1 =>
    match outs i with
    | .resp c b =>
      if c < 400 then (some b, [])
      else
        let mid := if rem = 0 then [] else [δ * (i + 1)]
        let r := scraperFetchRun outs δ (i + 1) rem
        (r.1, mid ++ r.2)
    | _ =>
      let mid := if rem = 0 then [] else [δ * (i + 1)]
      let r := scraperFetchRun outs δ (i + 1) rem
      (r.1, mid ++ r.2)

def scraperFetchPage (outs : ℕ → Outcome) (δ maxR : ℕ) : Option String × List ℕ :=
  scraperFetchRun outs δ 0 maxR

/-! ## Persistence (`models.py`, `TurboAzScraper.save_data`)

The `cars` table is a row list; timestamps are a logical clock (ℕ).  The
construction of a `models.Car` from the extracted dict copies the payload
fields, so a stored row is a `CarData` payload plus the two timestamps. -/

structure StoredCar where
  fields : CarData
  created_at : ℕ
  updated_at : ℕ
deriving DecidableEq, Repr

abbrev Store := List StoredCar

/-- `models.init_db`: `drop_all` followed by `create_all` — whatever the
store held, it is now empty. -/
def init_db (_ : Store) : Store := []

/-- `models.save_car_to_db` at time `t`: the first row with the incoming
`listing_id` has all payload fields overwritten and `updated_at`
refreshed; with no such row, a new row is appended with both timestamps
set to `t`. -/
def save_car_to_db : Store → CarData → ℕ → Store
  | [], c, t => [⟨c, t, t⟩]
  | row :: rest, c, t =>
    if row.fields.listing_id == c.listing_id then ⟨c, row.created_at, t⟩ :: rest
    else row :: save_car_to_db rest c t

/-- `TurboAzScraper.save_data` at time `t`: an empty batch is a no-op;
otherwise `init_db()` runs first (dropping the table) and then every batch
entry is saved through `save_car_to_db`. -/
def saveData (s : Store) (batch : List CarData) (t : ℕ) : Store :=
  if batch.isEmpty then s
  else batch.foldl (fun st c => save_car_to_db st c t) (init_db s)

def countById (s : Store) (lid : String) : ℕ :=
  (s.filter (fun r => r.fields.listing_id == lid)).length

def lookupById (s : Store) (lid : String) : Option StoredCar :=
  s.find? (fun r => r.fields.listing_id == lid)

def memById (s : Store) (lid : String) : Bool :=
  s.any (fun r => r.fields.listing_id == lid)

/-! ## Concrete inputs used by witnesses and counterexamples -/

/-- A record payload with the given id and defaulted fields. -/
def mkCar (lid : String) (price : ℚ := 0) : CarData :=
  { title := "car", price := price, description := none, location := none,
    brand := none, model := none, year := 0, body_type := none, color := none,
    engine_size := 0, mileage := 0, transmission := none, listing_id := lid,
    url := "", fuel_type := none, seller_type := none, images := none }

/-- A listing document whose `year` property does not parse as an integer. -/
def badYearDoc : ListingDoc :=
  { titleElem := some "BMW 320", priceElem := none, descElem := none,
    propertyItems := [(some "Marka", some "BMW"), (some "Buraxılış ili", some "N/A")],
    shopContact := false, ownerInfo := false, photoSrcs := [] }

/-- A well-formed listing document. -/
def demoDoc : ListingDoc :=
  { titleElem := some "BMW X5", priceElem := some "45 000 ₼", descElem := none,
    propertyItems := [(some "Marka", some "BMW"), (some "Buraxılış ili", some "2020")],
    shopContact := false, ownerInfo := true, photoSrcs := [some "a.jpg"] }

/-- A page-fetch function whose page 1 is unreachable and whose page 2 lists
one car. -/
def c10Fetch : ℕ → Option IndexPage :=
  fun q => if q = 1 then none else some ⟨[some "/autos/123-bmw-x5"]⟩

/-! ## Lemmas about the persistence layer -/

theorem lookupById_save (s : Store) (c : CarData) (t : ℕ) :
    ∃ cr, lookupById (save_car_to_db s c t) c.listing_id =
      some { fields := c, created_at := cr, updated_at := t } := by
  induction s with
  | nil => exact ⟨t, by simp [save_car_to_db, lookupById, List.find?]⟩
  | cons row rest ih =>
    by_cases h : row.fields.listing_id = c.listing_id
    · exact ⟨row.created_at, by simp [save_car_to_db, lookupById, List.find?, h]⟩
    · obtain ⟨cr, hcr⟩ := ih
      refine ⟨cr, ?_⟩
      simpa [save_car_to_db, lookupById, List.find?, h] using hcr

theorem countById_cons (row : StoredCar) (rest : Store) (lid : String) :
    countById (row :: rest) lid =
      (if row.fields.listing_id == lid then 1 else 0) + countById rest lid := by
  by_cases h : row.fields.listing_id == lid <;>
    simp [countById, List.filter_cons, h, Nat.add_comm]

theorem countById_save (s : Store) (c : CarData) (t : ℕ)
    (h : countById s c.listing_id ≤ 1) :
    countById (save_car_to_db s c t) c.listing_id = 1 := by
  induction s with
  | nil => simp [save_car_to_db, countById]
  | cons row rest ih =>
    rw [countById_cons] at h
    by_cases hr : row.fields.listing_id == c.listing_id
    · rw [if_pos hr] at h
      have h0 : countById rest c.listing_id = 0 := by omega
      have hsave : save_car_to_db (row :: rest) c t =
          ⟨c, row.created_at, t⟩ :: rest := by simp [save_car_to_db, hr]
      rw [hsave, countById_cons]
      simp [h0]
    · rw [if_neg hr] at h
      have hsave : save_car_to_db (row :: rest) c t =
          row :: save_car_to_db rest c t := by simp [save_car_to_db, hr]
      rw [hsave, countById_cons, if_neg hr, ih (by omega)]

/-! ## Claims about persistence -/

/-- Claim C2: starting from any store holding at most one row with the shared
`listing_id`, upserting `r1` at time `t1` and then `r2` at a later time `t2`
leaves exactly one row with that id; its payload is `r2`'s, and its
`updated_at` (`t2`) is strictly greater than the `updated_at` the row had
after the first call (`t1`). -/
theorem upsert_twice_single_updated_row (s : Store) (r1 r2 : CarData) (t1 t2 : ℕ)
    (hid : r1.listing_id = r2.listing_id)
    (hinv : countById s r2.listing_id ≤ 1)
    (ht : t1 < t2) :
    countById (save_car_to_db (save_car_to_db s r1 t1) r2 t2) r2.listing_id = 1 ∧
    ∃ row1 row2,
      lookupById (save_car_to_db s r1 t1) r2.listing_id = some row1 ∧
      lookupById (save_car_to_db (save_car_to_db s r1 t1) r2 t2) r2.listing_id = some row2 ∧
      row2.fields = r2 ∧ row2.updated_at = t2 ∧
      row1.updated_at = t1 ∧ row1.updated_at < row2.updated_at := by
  have hinv1 : countById s r1.listing_id ≤ 1 := by rwa [hid]
  have hc1 : countById (save_car_to_db s r1 t1) r1.listing_id = 1 :=
    countById_save s r1 t1 hinv1
  have hc1' : countById (save_car_to_db s r1 t1) r2.listing_id ≤ 1 := by
    rw [← hid]; omega
  refine ⟨countById_save _ r2 t2 hc1', ?_⟩
  obtain ⟨cr1, h1⟩ := lookupById_save s r1 t1
  have h1' : lookupById (save_car_to_db s r1 t1) r2.listing_id =
      some { fields := r1, created_at := cr1, updated_at := t1 } := by
    rwa [hid] at h1
  obtain ⟨cr2, h2⟩ := lookupById_save (save_car_to_db s r1 t1) r2 t2
  exact ⟨{ fields := r1, created_at := cr1, updated_at := t1 },
         { fields := r2, created_at := cr2, updated_at := t2 },
         h1', h2, rfl, rfl, rfl, ht⟩

/-- Claim C2 witness: on the empty store, with concrete records sharing id
`"111"` and times `0 < 5`. -/
theorem upsert_twice_single_updated_row_witness :
    countById (save_car_to_db (save_car_to_db [] (mkCar "111" 1) 0) (mkCar "111" 2) 5)
        (mkCar "111" 2).listing_id = 1 ∧
    ∃ row1 row2,
      lookupById (save_car_to_db [] (mkCar "111" 1) 0) (mkCar "111" 2).listing_id = some row1 ∧
      lookupById (save_car_to_db (save_car_to_db [] (mkCar "111" 1) 0) (mkCar "111" 2) 5)
          (mkCar "111" 2).listing_id = some row2 ∧
      row2.fields = mkCar "111" 2 ∧ row2.updated_at = 5 ∧
      row1.updated_at = 0 ∧ row1.updated_at < row2.updated_at :=
  upsert_twice_single_updated_row [] (mkCar "111" 1) (mkCar "111" 2) 0 5 rfl
    (by decide) (by omega)

/-- Claim C1: the claim fails on the code.  `TurboAzScraper.save_data` calls
`models.init_db`, which drops the whole `cars` table, before saving its
batch — so a record persisted by an earlier flush (`"111"`) is gone from
the store after a later flush of the same run whose batch (`"222"`) does
not contain it. -/
theorem save_data_flush_drops_earlier_records :
    memById (saveData [] [mkCar "111"] 1) "111" = true ∧
    memById (saveData (saveData [] [mkCar "111"] 1) [mkCar "222"] 2) "111" = false := by
  constructor <;> rfl

/-! ## Lemmas about the fetcher -/

theorem mainFetchRun_fst_none (outs : ℕ → Outcome) (δ : ℕ) :
    ∀ rem i, (∀ k, k < rem → mainSucceeds (outs (i + k)) = false) →
      (mainFetchRun outs δ i rem).1 = none := by
  intro rem
  induction rem with
  | zero => intro i _; rfl
  | succ n ih =>
    intro i h
    have h0 : mainSucceeds (outs i) = false := by simpa using h 0 n.succ_pos
    have hrest : ∀ k, k < n → mainSucceeds (outs (i + 1 + k)) = false := by
      intro k hk
      have hx := h (k + 1) (by omega)
      have he : i + (k + 1) = i + 1 + k := by omega
      rwa [he] at hx
    cases houti : outs i with
    | resp c b =>
      have hc : ¬ c = 200 := by
        rw [houti] at h0
        simpa [mainSucceeds] using h0
      simp [mainFetchRun, houti, hc, ih (i + 1) hrest]
    | timeout => simp [mainFetchRun, houti, ih (i + 1) hrest]
    | connError => simp [mainFetchRun, houti, ih (i + 1) hrest]

theorem scraperFetchRun_fst_none (outs : ℕ → Outcome) (δ : ℕ) :
    ∀ rem i, (∀ k, k < rem → scraperSucceeds (outs (i + k)) = false) →
      (scraperFetchRun outs δ i rem).1 = none := by
  intro rem
  induction rem with
  | zero => intro i _; rfl
  | succ n ih =>
    intro i h
    have h0 : scraperSucceeds (outs i) = false := by simpa using h 0 n.succ_pos
    have hrest : ∀ k, k < n → scraperSucceeds (outs (i + 1 + k)) = false := by
      intro k hk
      have hx := h (k + 1) (by omega)
      have he : i + (k + 1) = i + 1 + k := by omega
      rwa [he] at hx
    cases houti : outs i with
    | resp c b =>
      have hc : ¬ c < 400 := by
        rw [houti] at h0
        simpa [scraperSucceeds] using h0
      simp [scraperFetchRun, houti, hc, ih (i + 1) hrest]
    | timeout => simp [scraperFetchRun, houti, ih (i + 1) hrest]
    | connError => simp [scraperFetchRun, houti, ih (i + 1) hrest]

/-- Sleep schedule of `scraper.py`'s retry loop on an all-failing run: one
sleep of `δ * (attempt + 1)` after every failing attempt except the last,
whatever kind of failure occurred. -/
theorem scraperFetchRun_sleeps (outs : ℕ → Outcome) (δ : ℕ) :
    ∀ rem i, (∀ k, k < rem → scraperSucceeds (outs (i + k)) = false) →
      (scraperFetchRun outs δ i rem).2 =
        (List.range (rem - 1)).map (fun k => δ * (i + k + 1)) := by
  intro rem
  induction rem with
  | zero => intro i _; rfl
  | succ n ih =>
    intro i h
    have h0 : scraperSucceeds (outs i) = false := by simpa using h 0 n.succ_pos
    have hrest : ∀ k, k < n → scraperSucceeds (outs (i + 1 + k)) = false := by
      intro k hk
      have hx := h (k + 1) (by omega)
      have he : i + (k + 1) = i + 1 + k := by omega
      rwa [he] at hx
    have htail : (scraperFetchRun outs δ (i + 1) n).2 =
        (List.range (n - 1)).map (fun k => δ * (i + 1 + k + 1)) := ih (i + 1) hrest
    have hstep : (scraperFetchRun outs δ i (n + 1)).2 =
        (if n = 0 then [] else [δ * (i + 1)]) ++ (scraperFetchRun outs δ (i + 1) n).2 := by
      cases houti : outs i with
      | resp c b =>
        have hc : ¬ c < 400 := by
          rw [houti] at h0
          simpa [scraperSucceeds] using h0
        simp [scraperFetchRun, houti, hc]
      | timeout => simp [scraperFetchRun, houti]
      | connError => simp [scraperFetchRun, houti]
    rw [hstep, htail]
    cases n with
    | zero => simp
    | succ m =>
      have hR : (List.range (m + 1 + 1 - 1)).map (fun k => δ * (i + k + 1)) =
          δ * (i + 1) :: (List.range m).map (fun k => δ * (i + 1 + k + 1)) := by
        show (List.range (m + 1)).map (fun k => δ * (i + k + 1)) = _
        rw [List.range_succ_eq_map, List.map_cons, List.map_map]
        congr 1
        exact List.map_congr_left (fun k _ => by
          simp only [Function.comp_apply]
          congr 1
          omega)
      rw [hR, if_neg (Nat.succ_ne_zero m)]
      rfl

/-- Sleep schedule of `main.py`'s retry loop on an all-failing run: every
attempt contributes `[2δ]` when it was answered with a 429 and a constant
`[δ]` unless it was the last attempt. -/
theorem mainFetchRun_sleeps (outs : ℕ → Outcome) (δ : ℕ) :
    ∀ rem i, (∀ k, k < rem → mainSucceeds (outs (i + k)) = false) →
      (mainFetchRun outs δ i rem).2 =
        ((List.range rem).map (fun k =>
            (if is429 (outs (i + k)) then [2 * δ] else []) ++
              (if k + 1 = rem then [] else [δ]))).flatten := by
  intro rem
  induction rem with
  | zero => intro i _; rfl
  | succ n ih =>
    intro i h
    have h0 : mainSucceeds (outs i) = false := by simpa using h 0 n.succ_pos
    have hrest : ∀ k, k < n → mainSucceeds (outs (i + 1 + k)) = false := by
      intro k hk
      have hx := h (k + 1) (by omega)
      have he : i + (k + 1) = i + 1 + k := by omega
      rwa [he] at hx
    have htail := ih (i + 1) hrest
    have hstep : (mainFetchRun outs δ i (n + 1)).2 =
        (if is429 (outs i) then [2 * δ] else []) ++
          (if n = 0 then [] else [δ]) ++ (mainFetchRun outs δ (i + 1) n).2 := by
      cases houti : outs i with
      | resp c b =>
        have hc : ¬ c = 200 := by
          rw [houti] at h0
          simpa [mainSucceeds] using h0
        by_cases h429 : c = 429
        · simp [mainFetchRun, houti, hc, is429, h429]
        · have : ¬ ((c == 429) = true) := by simpa using h429
          simp [mainFetchRun, houti, hc, is429, h429]
      | timeout => simp [mainFetchRun, houti, is429]
      | connError => simp [mainFetchRun, houti, is429]
    have hhead : (if (0 : ℕ) + 1 = n + 1 then ([] : List ℕ) else [δ]) =
        (if n = 0 then [] else [δ]) := by
      by_cases hn : n = 0
      · simp [hn]
      · rw [if_neg (by omega), if_neg hn]
    have htailmap :
        (List.range n).map
            ((fun k => (if is429 (outs (i + k)) then [2 * δ] else []) ++
                (if k + 1 = n + 1 then [] else [δ])) ∘ Nat.succ) =
          (List.range n).map (fun k =>
            (if is429 (outs (i + 1 + k)) then [2 * δ] else []) ++
              (if k + 1 = n then [] else [δ])) :=
      List.map_congr_left (fun k _ => by
        simp only [Function.comp_apply, Nat.succ_eq_add_one]
        have he : i + (k + 1) = i + 1 + k := by omega
        rw [he]
        by_cases hk : k + 1 = n
        · rw [if_pos (by omega : k + 1 + 1 = n + 1), if_pos hk]
        · rw [if_neg (by omega : ¬ (k + 1 + 1 = n + 1)), if_neg hk])
    rw [hstep, htail, List.range_succ_eq_map, List.map_cons, List.map_map,
      List.flatten_cons, Nat.add_zero, hhead, htailmap]
    rfl

/-! ## Claims about the fetcher -/

/-- Claim C3 counterexample: after exhausting `MAX_RETRIES = 3` attempts,
`main.py`'s `fetch_page` returns the same value (`None`) whether every
attempt timed out (no response at all) or every attempt got a non-success
404 response — the failure value does not distinguish the two cases the
claim says it distinguishes. -/
theorem fetch_failure_not_distinguished :
    (mainFetchPage (fun _ => Outcome.timeout) 1 3).1 =
      (mainFetchPage (fun _ => Outcome.resp 404 "") 1 3).1 ∧
    (mainFetchPage (fun _ => Outcome.timeout) 1 3).1 = none :=
  ⟨rfl, rfl⟩

/-- Claim C3 (amended): both `fetch_page` implementations return the single
failure value `None` to their caller after exhausting `MAX_RETRIES`
attempts with no successful response; no exception escapes (the functions
are total), but the no-response and non-success-status cases are not
distinguished. -/
theorem fetch_exhausted_returns_none :
    (∀ (outs : ℕ → Outcome) (δ maxR : ℕ),
        (∀ i, i < maxR → mainSucceeds (outs i) = false) →
        (mainFetchPage outs δ maxR).1 = none) ∧
    (∀ (outs : ℕ → Outcome) (δ maxR : ℕ),
        (∀ i, i < maxR → scraperSucceeds (outs i) = false) →
        (scraperFetchPage outs δ maxR).1 = none) := by
  constructor
  · intro outs δ maxR h
    exact mainFetchRun_fst_none outs δ maxR 0 (fun k hk => by simpa using h k hk)
  · intro outs δ maxR h
    exact scraperFetchRun_fst_none outs δ maxR 0 (fun k hk => by simpa using h k hk)

/-- Claim C3 witness: three timeouts for `main.py`, three 500 responses for
`scraper.py`. -/
theorem fetch_exhausted_returns_none_witness :
    (mainFetchPage (fun _ => Outcome.timeout) 1 3).1 = none ∧
    (scraperFetchPage (fun _ => Outcome.resp 500 "oops") 1 3).1 = none :=
  ⟨fetch_exhausted_returns_none.1 (fun _ => Outcome.timeout) 1 3 (fun _ _ => rfl),
   fetch_exhausted_returns_none.2 (fun _ => Outcome.resp 500 "oops") 1 3 (fun _ _ => rfl)⟩

/-- Claim C4 counterexample: in `scraper.py`'s `fetch_page` a rate-limit
(429) response gets no fixed `delay * 2` wait: with `delay = 1` and every
attempt answered 429, the emitted sleeps are `[1, 2]` (the linear schedule),
whereas the claim predicts the first wait to be `delay * 2 = 2`. -/
theorem backoff_429_counterexample :
    (scraperFetchPage (fun _ => Outcome.resp 429 "") 1 3).2 = [1, 2] ∧
    [1, 2] ≠ [2, 2] :=
  ⟨rfl, by decide⟩

/-- Claim C4 (amended): the sleep sequence of a failing fetch is fully
determined by the per-attempt outcomes, as follows.  `scraper.py`'s
`fetch_page` waits `delay * n` before retry `n` for *every* failure kind,
429 included (no special case).  `main.py`'s `fetch_page` waits a constant
`delay` before each retry, and an attempt answered with 429 additionally
sleeps `delay * 2` first. -/
theorem backoff_schedule :
    (∀ (outs : ℕ → Outcome) (δ maxR : ℕ),
        (∀ i, i < maxR → scraperSucceeds (outs i) = false) →
        (scraperFetchPage outs δ maxR).2 =
          (List.range (maxR - 1)).map (fun n => δ * (n + 1))) ∧
    (∀ (outs : ℕ → Outcome) (δ maxR : ℕ),
        (∀ i, i < maxR → mainSucceeds (outs i) = false) →
        (mainFetchPage outs δ maxR).2 =
          ((List.range maxR).map (fun i =>
              (if is429 (outs i) then [2 * δ] else []) ++
                (if i + 1 = maxR then [] else [δ]))).flatten) := by
  constructor
  · intro outs δ maxR h
    rw [scraperFetchPage,
      scraperFetchRun_sleeps outs δ maxR 0 (fun k hk => by simpa using h k hk)]
    exact List.map_congr_left (fun k _ => by simp)
  · intro outs δ maxR h
    rw [mainFetchPage,
      mainFetchRun_sleeps outs δ maxR 0 (fun k hk => by simpa using h k hk)]
    congr 1
    exact List.map_congr_left (fun k _ => by simp)

/-- Claim C4 witness: `delay = 1`, `MAX_RETRIES = 3`; `scraper.py` with three
timeouts sleeps `[1, 2]`; `main.py` with a 429 then two timeouts sleeps
`[2, 1, 1]`. -/
theorem backoff_schedule_witness :
    (scraperFetchPage (fun _ => Outcome.timeout) 1 3).2 = [1, 2] ∧
    (mainFetchPage (fun i => if i = 0 then Outcome.resp 429 "" else Outcome.timeout) 1 3).2 =
      [2, 1, 1] := by
  constructor
  · rw [backoff_schedule.1 (fun _ => Outcome.timeout) 1 3 (fun _ _ => rfl)]
    rfl
  · rw [backoff_schedule.2 (fun i => if i = 0 then Outcome.resp 429 "" else Outcome.timeout) 1 3
      (fun i _ => by cases i <;> rfl)]
    rfl

/-! ## Claims about the pagination resolver -/

/-- Claim C5: `total_pages` returns `1` when the fetched index page has no
pagination control, and `0` both when the index page could not be fetched
and when the second-to-last pagination entry is missing or does not parse
as an integer — and no other value in those situations. -/
theorem get_total_pages_spec :
    getTotalPages none = 0 ∧
    (∀ h : IndexHtml, h.pagination = none → getTotalPages (some h) = 1) ∧
    (∀ (h : IndexHtml) (anchors : List String),
        h.pagination = some anchors → secondToLast anchors = none →
        getTotalPages (some h) = 0) ∧
    (∀ (h : IndexHtml) (anchors : List String) (t : String),
        h.pagination = some anchors → secondToLast anchors = some t →
        pyIntParse t = none → getTotalPages (some h) = 0) := by
  refine ⟨rfl, ?_, ?_, ?_⟩
  · intro h hp
    simp [getTotalPages, hp]
  · intro h anchors hp hs
    simp [getTotalPages, hp, hs]
  · intro h anchors t hp hs hpi
    simp [getTotalPages, hp, hs, hpi]

/-- Claim C5 witness: a page without pagination, a pagination with a single
anchor (`IndexError`), and one whose second-to-last anchor is the word
`"next"` (`ValueError`). -/
theorem get_total_pages_spec_witness :
    getTotalPages (some ⟨none⟩) = 1 ∧
    getTotalPages (some ⟨some ["7"]⟩) = 0 ∧
    getTotalPages (some ⟨some ["1", "next", "›"]⟩) = 0 :=
  ⟨get_total_pages_spec.2.1 ⟨none⟩ rfl,
   get_total_pages_spec.2.2.1 ⟨some ["7"]⟩ ["7"] rfl (by decide),
   get_total_pages_spec.2.2.2 ⟨some ["1", "next", "›"]⟩ ["1", "next", "›"] "next" rfl
     (by decide) (by decide)⟩

/-! ## Lemmas about digit parsing -/

theorem splitOnDot_all_digits (l : List Char) (h : l.all Char.isDigit = true) :
    splitOnDot l = [l] := by
  induction l with
  | nil => rfl
  | cons c rest ih =>
    rw [List.all_cons, Bool.and_eq_true] at h
    have hne : ¬ c = '.' := fun e => by
      rw [e] at h
      exact absurd h.1 (by decide)
    simp only [splitOnDot, if_neg hne, ih h.2]

theorem pyFloatCore_digits (l : List Char) (hne : l ≠ []) (h : l.all Char.isDigit = true) :
    pyFloatCore l = some ((natOfDigits l : ℚ)) := by
  have hemp : l.isEmpty = false := by
    cases l with
    | nil => exact absurd rfl hne
    | cons c cs => rfl
  unfold pyFloatCore
  rw [splitOnDot_all_digits l h]
  simp [hemp, h]

theorem pyFloatParse_digits (l : List Char) (hne : l ≠ []) (h : l.all Char.isDigit = true) :
    pyFloatParse (String.mk l) = some ((natOfDigits l : ℚ)) := by
  cases l with
  | nil => exact absurd rfl hne
  | cons c rest =>
    have h' := h
    rw [List.all_cons, Bool.and_eq_true] at h'
    have hcm : ¬ c = '-' := fun e => by
      rw [e] at h'
      exact absurd h'.1 (by decide)
    have hcp : ¬ c = '+' := fun e => by
      rw [e] at h'
      exact absurd h'.1 (by decide)
    show pyFloatParse ⟨c :: rest⟩ = _
    simp only [pyFloatParse, if_neg hcm, if_neg hcp]
    exact pyFloatCore_digits (c :: rest) (by simp) h

theorem filter_isDigit_all (l : List Char) :
    (l.filter Char.isDigit).all Char.isDigit = true := by
  rw [List.all_eq_true]
  intro c hc
  exact (List.mem_filter.mp hc).2

/-! ## Claim about price extraction -/

/-- Claim C6: on any price text made of digits, spaces, and currency symbols,
`extract_price` returns the number formed by the digit characters in order
(`digitsVal`); the empty text and the absent element give `0`. -/
theorem extract_price_digit_concat :
    (∀ t : String,
        (∀ c ∈ t.data, c.isDigit = true ∨ c = ' ' ∨ c = '₼' ∨ c = '$' ∨ c = '€') →
        extract_price (some t) = (digitsVal t : ℚ)) ∧
    extract_price (some "") = 0 ∧ extract_price none = 0 := by
  refine ⟨?_, rfl, rfl⟩
  intro t _
  by_cases ht : t = ""
  · subst ht
    simp [extract_price, digitsVal, natOfDigits]
  · have hall := filter_isDigit_all t.data
    cases hl : t.data.filter Char.isDigit with
    | nil =>
      simp only [extract_price, if_neg ht, hl]
      simp [digitsVal, hl, natOfDigits, pyFloatParse]
    | cons c cs =>
      have hp := pyFloatParse_digits (c :: cs) (by simp) (by rw [← hl]; exact hall)
      simp only [extract_price, if_neg ht, hl, hp]
      simp [digitsVal, hl]

/-- Claim C6 witness: `"45 000 ₼"` extracts to `45000`. -/
theorem extract_price_digit_concat_witness :
    extract_price (some "45 000 ₼") = (digitsVal "45 000 ₼" : ℚ) ∧
    digitsVal "45 000 ₼" = 45000 :=
  ⟨extract_price_digit_concat.1 "45 000 ₼" (by decide), by decide⟩

/-! ## Claims about fuel-type extraction -/

/-- Claim C7 counterexample: `TurboAzScraper.extract_fuel_type` on a listing
with no explicit fuel property and no matching keyword returns `None`, not
the default `"Gasoline"` the claim requires of fuel-type extraction. -/
theorem fuel_type_default_counterexample :
    scraperExtractFuelType [] "BMW 320i" = none ∧
    (none : Option String) ≠ some "Gasoline" :=
  ⟨rfl, by decide⟩

/-- Claim C7 (amended): `main.py`'s `extract_fuel_type` follows the
precedence (a) non-empty explicit `fuel_type` property, (b) keyword inside
the lowercased engine-size text, (c) keyword inside the lowercased title,
(d) default `"Gasoline"`; `scraper.py`'s variant checks only the explicit
property and a case-sensitive title match and returns `None` — not
`"Gasoline"` — when nothing matches. -/
theorem fuel_type_precedence :
    (∀ (props : RawProps) (title ft : String),
        rpGet props "fuel_type" = some ft → ft ≠ "" →
        mainExtractFuelType props title = ft ∧
          scraperExtractFuelType props title = some ft) ∧
    (∀ (props : RawProps) (title f : String),
        (rpGet props "fuel_type" = none ∨ rpGet props "fuel_type" = some "") →
        engineFuelMatch (lowerStr ((rpGet props "engine_size").getD "")) = some f →
        mainExtractFuelType props title = f) ∧
    (∀ (props : RawProps) (title f : String),
        (rpGet props "fuel_type" = none ∨ rpGet props "fuel_type" = some "") →
        engineFuelMatch (lowerStr ((rpGet props "engine_size").getD "")) = none →
        titleFuelMatch (lowerStr title) = some f →
        mainExtractFuelType props title = f) ∧
    (∀ (props : RawProps) (title : String),
        (rpGet props "fuel_type" = none ∨ rpGet props "fuel_type" = some "") →
        engineFuelMatch (lowerStr ((rpGet props "engine_size").getD "")) = none →
        titleFuelMatch (lowerStr title) = none →
        mainExtractFuelType props title = "Gasoline") ∧
    (∀ (props : RawProps) (title : String),
        (rpGet props "fuel_type" = none ∨ rpGet props "fuel_type" = some "") →
        scraperTitleMatch title = none →
        scraperExtractFuelType props title = none) := by
  refine ⟨?_, ?_, ?_, ?_, ?_⟩
  · intro props title ft h1 h2
    constructor
    · simp [mainExtractFuelType, h1, h2]
    · simp [scraperExtractFuelType, h1, h2]
  · intro props title f hx he
    rcases hx with hx | hx <;>
      simp [mainExtractFuelType, mainFuelFallback, hx, he]
  · intro props title f hx he htl
    rcases hx with hx | hx <;>
      simp [mainExtractFuelType, mainFuelFallback, hx, he, htl]
  · intro props title hx he htl
    rcases hx with hx | hx <;>
      simp [mainExtractFuelType, mainFuelFallback, hx, he, htl]
  · intro props title hx htl
    rcases hx with hx | hx <;>
      simp [scraperExtractFuelType, hx, htl]

/-- Claim C7 witness: one concrete input per precedence level, plus the
`scraper.py` no-match case. -/
theorem fuel_type_precedence_witness :
    mainExtractFuelType [("fuel_type", "Dizel")] "x" = "Dizel" ∧
    mainExtractFuelType [("engine_size", "2.0 L Hibrid")] "x" = "Hybrid" ∧
    mainExtractFuelType [] "BMW Dizel 2020" = "Diesel" ∧
    mainExtractFuelType [] "BMW 320" = "Gasoline" ∧
    scraperExtractFuelType [] "BMW 320" = none :=
  ⟨(fuel_type_precedence.1 [("fuel_type", "Dizel")] "x" "Dizel" rfl (by decide)).1,
   fuel_type_precedence.2.1 [("engine_size", "2.0 L Hibrid")] "x" "Hybrid"
     (Or.inl rfl) (by decide),
   fuel_type_precedence.2.2.1 [] "BMW Dizel 2020" "Diesel" (Or.inl rfl) rfl (by decide),
   fuel_type_precedence.2.2.2.1 [] "BMW 320" (Or.inl rfl) rfl (by decide),
   fuel_type_precedence.2.2.2.2 [] "BMW 320" (Or.inl rfl) (by decide)⟩

/-! ## Claims about listing extraction -/

/-- Claim C8: the claim holds for `TurboAzScraper.process_car_data` (an
unparseable `year` becomes `0` for that field only), but `main.py`'s
`scrape_specific_listing` leaves the `int(...)`/`float(...)` conversions
unguarded, so the same document makes the whole listing come back empty:
the code contradicts the field-level-default design. -/
theorem unguarded_year_parse_aborts_listing :
    mainScrapeListing badYearDoc "https://turbo.az/autos/123" = none ∧
    (scraperProcessCarData badYearDoc "https://turbo.az/autos/123").map
        (fun r => (r.year, r.title)) = some (0, "BMW 320") := by
  constructor <;> rfl

/-- Equation lemma for the success branch of `process_car_data`. -/
theorem scraperProcessCarData_some (d : ListingDoc) (url t : String)
    (hti : d.titleElem = some t)
    (hp : (parseCarDetails d.propertyItems).isEmpty = false) :
    scraperProcessCarData d url = some
      { title := t
        price := extract_price d.priceElem
        description := d.descElem
        location := rpGet (parseCarDetails d.propertyItems) "location"
        brand := rpGet (parseCarDetails d.propertyItems) "brand"
        model := rpGet (parseCarDetails d.propertyItems) "model"
        year := (parseYear (parseCarDetails d.propertyItems)).getD 0
        body_type := rpGet (parseCarDetails d.propertyItems) "body_type"
        color := rpGet (parseCarDetails d.propertyItems) "color"
        engine_size := scraperExtractEngineSize (parseCarDetails d.propertyItems)
        mileage := (parseMileage (parseCarDetails d.propertyItems)).getD 0
        transmission := rpGet (parseCarDetails d.propertyItems) "transmission"
        listing_id := lastSegment url
        url := url
        fuel_type := scraperExtractFuelType (parseCarDetails d.propertyItems) t
        seller_type := scraperExtractSellerType d
        images := extractImages d } := by
  unfold scraperProcessCarData
  rw [hti]
  simp [hp]

theorem takeWhile_after_slash (pre l : List Char) (h : ∀ c ∈ l, (c != '/') = true) :
    ((pre ++ '/' :: l).reverse.takeWhile (fun c => c != '/')).reverse = l := by
  rw [List.reverse_append, List.reverse_cons, List.append_assoc]
  rw [List.takeWhile_append_of_pos (by
    intro a ha
    exact h a (List.mem_reverse.mp ha))]
  simp [List.takeWhile]

theorem lastSegment_listingUrl (lid : String)
    (h : lid.data.all (fun c => c != '/') = true) :
    lastSegment (listingUrl lid) = lid := by
  have hd : (listingUrl lid).data = "https://turbo.az/autos".data ++ '/' :: lid.data := by
    show (BASE_URL ++ "/" ++ lid).data = _
    rw [String.data_append, String.data_append]
    rfl
  rw [lastSegment, hd,
    takeWhile_after_slash "https://turbo.az/autos".data lid.data
      (List.all_eq_true.mp h)]

/-- Claim C9: for every slash-free listing id, `process_car_data` on a
document with a title element and a non-empty parsed property map returns a
record whose `listing_id` is the id the listing URL was built from;
conversely a missing title or an empty property map gives `None` and the
listing is skipped. -/
theorem process_car_data_extract :
    (∀ (d : ListingDoc) (lid t : String),
        d.titleElem = some t →
        parseCarDetails d.propertyItems ≠ [] →
        lid.data.all (fun c => c != '/') = true →
        ∃ r, scraperProcessCarData d (listingUrl lid) = some r ∧
          r.listing_id = lid ∧ r.title = t) ∧
    (∀ (d : ListingDoc) (url : String),
        d.titleElem = none ∨ parseCarDetails d.propertyItems = [] →
        scraperProcessCarData d url = none) := by
  constructor
  · intro d lid t hti hp hs
    have hempty : (parseCarDetails d.propertyItems).isEmpty = false := by
      cases hpc : parseCarDetails d.propertyItems with
      | nil => exact absurd hpc hp
      | cons a pl => rfl
    exact ⟨_, scraperProcessCarData_some d (listingUrl lid) t hti hempty,
           lastSegment_listingUrl lid hs, rfl⟩
  · intro d url h
    rcases h with h | h
    · unfold scraperProcessCarData
      rw [h]
    · cases hti : d.titleElem with
      | none =>
        unfold scraperProcessCarData
        rw [hti]
      | some t =>
        unfold scraperProcessCarData
        rw [hti, h]
        rfl

/-- Claim C9 witness: a well-formed document and the id `"7777777"`. -/
theorem process_car_data_extract_witness :
    (scraperProcessCarData demoDoc (listingUrl "7777777")).map
        (fun r => (r.listing_id, r.title)) = some ("7777777", "BMW X5") := by
  obtain ⟨r, h1, h2, h3⟩ :=
    process_car_data_extract.1 demoDoc "7777777" "BMW X5" rfl (by decide) (by decide)
  rw [h1]
  simp [h2, h3]

/-! ## Claim about listing-id resolution under fetch failure -/

theorem flatten_map_filter {α : Type} (f : ℕ → List α) (g : ℕ → Bool) :
    ∀ l : List ℕ, (∀ k ∈ l, g k = false → f k = []) →
      (l.map f).flatten = ((l.filter g).map f).flatten := by
  intro l
  induction l with
  | nil => intro _; rfl
  | cons a l ih =>
    intro h
    have hrest := ih (fun k hk => h k (List.mem_cons_of_mem a hk))
    cases hg : g a with
    | false => simp [List.filter_cons, hg, h a (List.mem_cons_self a l) hg, hrest]
    | true => simp [List.filter_cons, hg, hrest]

/-- Claim C10: when fetching page `p` fails, `get_listing_ids` returns the
empty list (it cannot raise: the embedding is total), and the run's id
stream is exactly what the remaining pages contribute — the unreachable
page acts as zero listings and the loop continues. -/
theorem listing_ids_fetch_failure (fetchIdx : ℕ → Option IndexPage) (total p : ℕ)
    (h : fetchIdx p = none) :
    getListingIds (fetchIdx p) = [] ∧
    runListingIds fetchIdx total =
      (((List.range total).filter (fun k => k + 1 != p)).map
          (fun k => pageIds fetchIdx (k + 1))).flatten := by
  constructor
  · rw [h]
    rfl
  · unfold runListingIds
    exact flatten_map_filter _ _ (List.range total) (fun k _ hk => by
      have hkp : k + 1 = p := by simpa using hk
      simp [pageIds, hkp, h, getListingIds])

/-- Claim C10 witness: page 1 unreachable, page 2 lists one car; the run
yields exactly that car's id. -/
theorem listing_ids_fetch_failure_witness :
    getListingIds (c10Fetch 1) = [] ∧ runListingIds c10Fetch 2 = ["123"] := by
  have h := listing_ids_fetch_failure c10Fetch 2 1 rfl
  refine ⟨h.1, ?_⟩
  rw [h.2]
  rfl

end TurboAz
